import Mathlib

/-!
Verification of the entity-store / CRUD-handler core of the repository.

The embedded source is `src/users.ts` (the users resource: seed data and the
three request handlers `getAllUsers`, `createUser`, `getUserById`) and the
generic container `DataStore<T>` from `src/example-scripts/Generics.ts`.

Handlers in the source read and (in principle) mutate the module-level array
`users`; here they are modelled as functions taking the current backing
collection and returning the (possibly updated) collection together with the
response written to `res`.
-/

/-- Shape of a POST /api/users request body (interface `CreateUserInput`). -/
structure CreateUserInput where
  name : String
  email : String
  age : Int
  deriving DecidableEq, Repr

/-- A stored user record (interface `UserData`). -/
structure UserData where
  id : Int
  name : String
  email : String
  age : Int
  deriving DecidableEq, Repr

/-- The module-level mock database: the initial value of the `users` array. -/
def users : List UserData :=
  [⟨1, "Alice", "alice@example.com", 28⟩,
   ⟨2, "Bob", "bob@example.com", 34⟩,
   ⟨3, "Charlie", "charlie@example.com", 25⟩]

/-- The JSON body a handler can write through `res.json(...)`. -/
inductive Body where
  | jsonList : List UserData → Body
  | jsonUser : UserData → Body
  | jsonMessage : String → Body
  | jsonCreated : String → UserData → Body
  deriving DecidableEq, Repr

/-- The observable response: `res.status(code).json(body)`. -/
structure HttpResponse where
  status : Nat
  body : Body
  deriving DecidableEq, Repr

/-- Longest leading run of decimal digits of a character list. -/
def leadingDigits : List Char → List Char
  | [] => []
  | c :: cs => if c.isDigit then c :: leadingDigits cs else []

/-- Numeric value of a list of decimal digit characters. -/
def digitsVal (ds : List Char) : Nat :=
  ds.foldl (fun acc c => acc * 10 + (c.toNat - 48)) 0

/-- JavaScript `parseInt(s, 10)`: skip leading whitespace, read an optional
sign, then the longest prefix of decimal digits; the result is `NaN`
(modelled as `none`) when no digit follows. -/
def parseInt10 (s : String) : Option Int :=
  let cs := s.data.dropWhile (fun c => c == ' ' || c == '\t' || c == '\n' || c == '\r')
  match cs with
  | '-' :: rest =>
      if leadingDigits rest = [] then none
      else some (-(digitsVal (leadingDigits rest) : Int))
  | '+' :: rest =>
      if leadingDigits rest = [] then none
      else some ((digitsVal (leadingDigits rest) : Int))
  | rest =>
      if leadingDigits rest = [] then none
      else some ((digitsVal (leadingDigits rest) : Int))

/-- Handler `getAllUsers` (src/users.ts:23-25): `res.status(200).json(users)`. -/
def getAllUsers (store : List UserData) : List UserData × HttpResponse :=
  (store, ⟨200, Body.jsonList store⟩)

/-- Handler `createUser` (src/users.ts:27-33): builds
`newUser = { id: users.length + 1, ...req.body }` and responds 201.
The source line `users.push(newUser);` (line 31) is commented out, so the
backing collection is returned unchanged. -/
def createUser (store : List UserData) (reqBody : CreateUserInput) :
    List UserData × HttpResponse :=
  let newUser : UserData :=
    ⟨(store.length : Int) + 1, reqBody.name, reqBody.email, reqBody.age⟩
  (store, ⟨201, Body.jsonCreated "User created successfully" newUser⟩)

/-- Handler `getUserById` (src/users.ts:35-43): parses the path parameter
with `parseInt(req.params.id, 10)`, looks the id up with `users.find`, and
responds 200 with the user or 404 with a message. When `parseInt` yields
`NaN`, `u.id === NaN` is false for every `u`, so `find` misses and the 404
branch runs; this is the `none` case below. -/
def getUserById (store : List UserData) (idParam : String) :
    List UserData × HttpResponse :=
  match parseInt10 idParam with
  | none => (store, ⟨404, Body.jsonMessage "User not found"⟩)
  | some userId =>
    match store.find? (fun u => u.id == userId) with
    | some user => (store, ⟨200, Body.jsonUser user⟩)
    | none => (store, ⟨404, Body.jsonMessage "User not found"⟩)

/-- Generic container `DataStore<T>` (src/example-scripts/Generics.ts). -/
structure DataStore (T : Type) where
  items : List T

/-- `addItem`: `this.items.push(item)`. -/
def DataStore.addItem {T : Type} (s : DataStore T) (item : T) : DataStore T :=
  ⟨s.items ++ [item]⟩

/-- `getItem(index)`: `this.items[index]`, which is `undefined` (here `none`)
whenever `index` is outside `[0, items.length)`. -/
def DataStore.getItem {T : Type} (s : DataStore T) (index : Int) : Option T :=
  if 0 ≤ index then s.items[index.toNat]? else none

/-- `removeItem(index)`: `splice(index, 1)` guarded by
`index >= 0 && index < this.items.length`. -/
def DataStore.removeItem {T : Type} (s : DataStore T) (index : Int) : DataStore T :=
  if 0 ≤ index ∧ index < (s.items.length : Int) then
    ⟨s.items.eraseIdx index.toNat⟩
  else s

/-- `getAllItems`: returns the stored items. -/
def DataStore.getAllItems {T : Type} (s : DataStore T) : List T :=
  s.items

/-- Request body used in the spec scenario for create. -/
def daveInput : CreateUserInput := ⟨"Dave", "dave@x.com", 22⟩

/-- A second request body, for two sequential creates. -/
def eveInput : CreateUserInput := ⟨"Eve", "eve@x.com", 30⟩

/-- The id carried in the `user` field of a create response. -/
def createdUserId (store : List UserData) (reqBody : CreateUserInput) : Int :=
  match (createUser store reqBody).2.body with
  | Body.jsonCreated _ u => u.id
  | _ => 0

theorem getUserById_fst (store : List UserData) (s : String) :
    (getUserById store s).1 = store := by
  cases hp : parseInt10 s with
  | none => simp [getUserById, hp]
  | some n =>
    cases hf : store.find? (fun u => u.id == n) with
    | none => simp [getUserById, hp, hf]
    | some u => simp [getUserById, hp, hf]

theorem find_id_of_mem (us : List UserData) (u : UserData) (n : Int)
    (hmem : u ∈ us) (hnd : (us.map UserData.id).Nodup) (hid : u.id = n) :
    us.find? (fun v => v.id == n) = some u := by
  induction us with
  | nil => cases hmem
  | cons v tl ih =>
    rw [List.map_cons, List.nodup_cons] at hnd
    rcases List.mem_cons.mp hmem with hvu | htl
    · subst hvu
      exact List.find?_cons_of_pos tl (by simp [hid])
    · have hvn : ¬ (v.id = n) := by
        intro hv
        apply hnd.1
        have hx : u.id ∈ tl.map UserData.id := List.mem_map_of_mem UserData.id htl
        rw [hid, ← hv] at hx
        exact hx
      rw [List.find?_cons_of_neg tl (by simp [hvn])]
      exact ih htl hnd.2

theorem find_id_none (us : List UserData) (n : Int)
    (h : ∀ v ∈ us, v.id ≠ n) :
    us.find? (fun v => v.id == n) = none := by
  apply List.find?_eq_none.mpr
  intro v hv
  simp [h v hv]

/-- C1: the claim says `createUser` appends the complete new record to the
backing collection so that the created entity is present afterward. On the
seed store with body Dave, the code returns the store unchanged (the append
at src/users.ts:31 is commented out) and the created record, id 4, is not
present in the resulting collection. -/
theorem createUser_drops_created_record :
    (createUser users daveInput).1 = users ∧
    (createUser users daveInput).1.find? (fun u => u.id == 4) = none := by
  decide

/-- C2: the claim says that after creating an entity, `getUserById` on its id
returns a record equal to it. Creating Dave on the seed store assigns id 4
(visible in the 201 response), yet a subsequent lookup of "4" on the
resulting store responds 404: the record was never appended. -/
theorem getUserById_after_create_misses :
    (createUser users daveInput).2.body =
      Body.jsonCreated "User created successfully" ⟨4, "Dave", "dave@x.com", 22⟩ ∧
    (getUserById (createUser users daveInput).1 "4").2 =
      ⟨404, Body.jsonMessage "User not found"⟩ := by
  decide

/-- C3: the claim says ids returned by a sequence of creates contain no
duplicates. Two sequential creates on the seed store (Dave then Eve) both
return id 4, because the collection length never changes. -/
theorem two_creates_return_duplicate_id :
    (createUser users daveInput).2.body =
      Body.jsonCreated "User created successfully" ⟨4, "Dave", "dave@x.com", 22⟩ ∧
    (createUser (createUser users daveInput).1 eveInput).2.body =
      Body.jsonCreated "User created successfully" ⟨4, "Eve", "eve@x.com", 30⟩ := by
  decide

/-- C4: the claim says each assigned id is strictly greater than every
previously assigned id. For the two sequential creates Dave then Eve on the
seed store, both assigned ids are 4, so id(c1) < id(c2) fails. -/
theorem create_ids_not_strictly_increasing :
    createdUserId users daveInput = 4 ∧
    createdUserId (createUser users daveInput).1 eveInput = 4 ∧
    ¬ (createdUserId users daveInput <
        createdUserId (createUser users daveInput).1 eveInput) := by
  decide

/-- C6: `getAllUsers` always responds 200 with the full backing collection,
in its stored (creation) order, and on the seed store it returns exactly the
three seed entities in order Alice, Bob, Charlie. -/
theorem getAllUsers_returns_full_store :
    (∀ store : List UserData, (getAllUsers store).2 = ⟨200, Body.jsonList store⟩) ∧
    (getAllUsers users).2 = ⟨200, Body.jsonList
      [⟨1, "Alice", "alice@example.com", 28⟩,
       ⟨2, "Bob", "bob@example.com", 34⟩,
       ⟨3, "Charlie", "charlie@example.com", 25⟩]⟩ :=
  ⟨fun _ => rfl, rfl⟩

/-- C7: on the seed store with body Dave, `createUser` responds 201 with the
success message and the new user carrying id 4. -/
theorem createUser_dave_response :
    (createUser users daveInput).2 =
      ⟨201, Body.jsonCreated "User created successfully"
        ⟨4, "Dave", "dave@x.com", 22⟩⟩ := by
  decide

/-- C5: for a path parameter parsing to id n, `getUserById` responds 200 with
the entity whose id is n when the store holds one (ids being duplicate-free),
and 404 with message "User not found" when no stored entity has id n; being a
total function it always produces a response. -/
theorem getUserById_found_or_404 (store : List UserData) (n : Int) (s : String)
    (u : UserData) (hparse : parseInt10 s = some n) :
    (u ∈ store → (store.map UserData.id).Nodup → u.id = n →
      (getUserById store s).2 = ⟨200, Body.jsonUser u⟩) ∧
    ((∀ v ∈ store, v.id ≠ n) →
      (getUserById store s).2 = ⟨404, Body.jsonMessage "User not found"⟩) := by
  constructor
  · intro hmem hnd hid
    simp [getUserById, hparse, find_id_of_mem store u n hmem hnd hid]
  · intro hnone
    simp [getUserById, hparse, find_id_none store n hnone]

/-- Witness for C5: on the seed store, id 2 yields 200 with Bob and id 999
yields the 404 message. -/
theorem getUserById_found_or_404_witness :
    (getUserById users "2").2 =
      ⟨200, Body.jsonUser ⟨2, "Bob", "bob@example.com", 34⟩⟩ ∧
    (getUserById users "999").2 = ⟨404, Body.jsonMessage "User not found"⟩ :=
  ⟨(getUserById_found_or_404 users 2 "2" ⟨2, "Bob", "bob@example.com", 34⟩
      (by decide)).1 (by decide) (by decide) rfl,
   (getUserById_found_or_404 users 999 "999" ⟨2, "Bob", "bob@example.com", 34⟩
      (by decide)).2 (by decide)⟩

/-- C8: the read handlers return the backing collection unchanged, and
repeating a read without an intervening create yields the identical
response. -/
theorem reads_do_not_mutate (store : List UserData) (s : String) :
    (getAllUsers store).1 = store ∧
    (getUserById store s).1 = store ∧
    (getAllUsers (getAllUsers store).1).2 = (getAllUsers store).2 ∧
    (getUserById (getUserById store s).1 s).2 = (getUserById store s).2 := by
  refine ⟨rfl, getUserById_fst store s, rfl, ?_⟩
  rw [getUserById_fst store s]

/-- C9: the lookup key is exactly parseInt(id, 10): "2abc" parses to 2 and,
on the seed store, returns 200 with Bob; "abc" parses to NaN (none), matches
no entity, and yields the 404 not-found response on every store. -/
theorem getUserById_key_is_parseInt :
    parseInt10 "2abc" = some 2 ∧ parseInt10 "abc" = none ∧
    (getUserById users "2abc").2 =
      ⟨200, Body.jsonUser ⟨2, "Bob", "bob@example.com", 34⟩⟩ ∧
    (∀ store : List UserData,
      (getUserById store "abc").2 = ⟨404, Body.jsonMessage "User not found"⟩) := by
  refine ⟨by decide, by decide, by decide, fun store => ?_⟩
  simp [getUserById, (by decide : parseInt10 "abc" = none)]

/-- C10: `getItem` is total and returns none for every index outside
[0, items.length); `removeItem` leaves the items unchanged for every such
out-of-range index and removes exactly one element when the index is in
range. -/
theorem dataStore_out_of_range_safe {T : Type} (s : DataStore T) (index : Int) :
    ((index < 0 ∨ (s.items.length : Int) ≤ index) → s.getItem index = none) ∧
    ((index < 0 ∨ (s.items.length : Int) ≤ index) →
      (s.removeItem index).items = s.items) ∧
    ((0 ≤ index ∧ index < (s.items.length : Int)) →
      (s.removeItem index).items.length + 1 = s.items.length) := by
  refine ⟨?_, ?_, ?_⟩
  · intro h
    unfold DataStore.getItem
    rcases h with h | h
    · rw [if_neg (by omega)]
    · rw [if_pos (by omega)]
      apply List.getElem?_eq_none
      omega
  · intro h
    unfold DataStore.removeItem
    rw [if_neg (by omega)]
  · intro h
    unfold DataStore.removeItem
    rw [if_pos h]
    show (s.items.eraseIdx index.toNat).length + 1 = s.items.length
    exact List.length_eraseIdx_add_one (by omega)

/-- Witness for C10 on the store [10, 20, 30]: index 5 reads none and removes
nothing; index 1 removes exactly one element. -/
theorem dataStore_out_of_range_safe_witness :
    DataStore.getItem (⟨[10, 20, 30]⟩ : DataStore Nat) 5 = none ∧
    (DataStore.removeItem (⟨[10, 20, 30]⟩ : DataStore Nat) 5).items =
      [10, 20, 30] ∧
    (DataStore.removeItem (⟨[10, 20, 30]⟩ : DataStore Nat) 1).items.length + 1 = 3 :=
  ⟨(dataStore_out_of_range_safe ⟨[10, 20, 30]⟩ 5).1 (Or.inr (by decide)),
   (dataStore_out_of_range_safe ⟨[10, 20, 30]⟩ 5).2.1 (Or.inr (by decide)),
   (dataStore_out_of_range_safe (⟨[10, 20, 30]⟩ : DataStore Nat) 1).2.2
     ⟨by decide, by decide⟩⟩
